import Mathlib

/-!
A shallow embedding of the core domain logic of a sports-league management
application: round-robin fixture generation, the live-scoring event ledger
(goals and cards), match outcome resolution (including the knockout
penalty-shootout tie-break), standings aggregation, and invite-code lookup.

Document ids (users, teams, tournaments, embedded matches) are opaque and only
ever compared for equality; they are modelled as `Nat`.  Invite codes are
genuine strings.  JavaScript numbers appearing as scores are only ever
incremented from zero (`Nat`); penalty scores arrive from the request body and
are compared for order and equality, modelled as `Int` (absent or non-numeric
values as `none`).  Fallible request handlers are modelled as
`Except String` values: an `error` result corresponds to a handler returning
an HTTP error before the document save, i.e. leaving persisted state
unchanged.
-/

namespace ASL

/-- Match status enum of `MatchSchema` (`backend/models/Tournament.js`). -/
inductive MatchStatus
| Scheduled
| Live
| Finished
deriving DecidableEq, Repr

/-- Card type enum of `CardSchema` (`backend/models/Tournament.js`). -/
inductive CardType
| Yellow
| Red
deriving DecidableEq, Repr

/-- A goal event (`GoalSchema`): scorer, optional assist, own-goal flag and
the benefiting team. -/
structure Goal where
  scorerId : Nat
  assistId : Option Nat
  minute : Nat
  isOwnGoal : Bool
  teamId : Nat
deriving DecidableEq, Repr

/-- A card event (`CardSchema`). -/
structure Card where
  playerId : Nat
  minute : Nat
  type : CardType
  teamId : Nat
deriving DecidableEq, Repr

/-- An embedded match (`MatchSchema`).  Field defaults mirror the schema
defaults; the subdocument id assigned by the store is modelled as `id`. -/
structure Match where
  id : Nat
  matchNumber : Nat
  teamAId : Nat
  teamBId : Nat
  scoreA : Nat := 0
  scoreB : Nat := 0
  penaltyScoreA : Option Int := none
  penaltyScoreB : Option Int := none
  status : MatchStatus := MatchStatus.Scheduled
  goals : List Goal := []
  cards : List Card := []
  round : String
  winnerId : Option Nat := none
deriving DecidableEq, Repr

/-- A team document (`TeamSchema`), restricted to the fields the core logic
reads. -/
structure Team where
  id : Nat
  adminIds : List Nat
  members : List Nat
  inviteCode : String
deriving DecidableEq, Repr

/-- A tournament document (`TournamentSchema`), restricted to the fields the
core logic reads. -/
structure Tournament where
  id : Nat
  adminId : Nat
  teams : List Nat
  «matches» : List Match
  isSchedulingDone : Bool := false
  inviteCode : String
deriving DecidableEq, Repr

/-- The knockout-round labels of `updateMatchStatus`
(`tournamentController.js:245`). -/
def knockoutRounds : List String := ["Final", "Semi-Final", "Quarter-Final", "Eliminator"]

/-- Core of `updateMatchStatus` (`tournamentController.js:227-259`) acting on
one match: assign the requested status; when the new status is `Finished`,
resolve the winner, requiring two supplied, non-equal penalty scores when a
knockout-round match is drawn.  `error` models the handler answering 400
before the save. -/
def updateMatchStatus (m : Match) (status : MatchStatus) (pA pB : Option Int) :
    Except String Match :=
  let m1 := { m with status := status }
  if status = MatchStatus.Finished then
    if m1.scoreA > m1.scoreB then
      Except.ok { m1 with winnerId := some m1.teamAId }
    else if m1.scoreB > m1.scoreA then
      Except.ok { m1 with winnerId := some m1.teamBId }
    else if m1.round ∈ knockoutRounds then
      match pA, pB with
      | some a, some b =>
        if a = b then
          Except.error "Valid, non-equal penalty scores are required for a knockout draw."
        else
          Except.ok { m1 with
            penaltyScoreA := some a
            penaltyScoreB := some b
            winnerId := some (if a > b then m1.teamAId else m1.teamBId) }
      | _, _ =>
        Except.error "Valid, non-equal penalty scores are required for a knockout draw."
    else
      Except.ok { m1 with winnerId := none }
  else
    Except.ok m1

/-- Embedded-match lookup `tournament.matches.id(matchId)`. -/
def findMatch (t : Tournament) (matchId : Nat) : Option Match :=
  t.matches.find? (fun m => m.id == matchId)

/-- Persist a mutated embedded match back into its tournament
(the mongoose subdocument mutation followed by `tournament.save()`). -/
def setMatch (t : Tournament) (matchId : Nat) (m1 : Match) : Tournament :=
  { t with «matches» := t.matches.map (fun m => if m.id == matchId then m1 else m) }

/-- Tournament lookup `Tournament.findById` over the stored tournaments. -/
def findTournament (ts : List Tournament) (tid : Nat) : Option Tournament :=
  ts.find? (fun t => t.id == tid)

/-- The request handler `updateMatchStatus` at tournament level
(`tournamentController.js:227-270`): tournament lookup, admin gate, match
lookup, then the outcome resolution; an `ok` result is the saved document. -/
def updateMatchStatusT (ts : List Tournament) (userId tid matchId : Nat)
    (status : MatchStatus) (pA pB : Option Int) : Except String Tournament :=
  match findTournament ts tid with
  | none => Except.error "Tournament not found"
  | some t =>
    if t.adminId ≠ userId then Except.error "User not authorized"
    else
      match findMatch t matchId with
      | none => Except.error "Match not found"
      | some m => (updateMatchStatus m status pA pB).map (setMatch t matchId)

/-- Roster resolution `Team.findOne({ members: playerId })`: the first stored team whose roster
contains the player.  Note: this searches every team, not just the two teams
of a match. -/
def findTeamOf (teams : List Team) (playerId : Nat) : Option Team :=
  teams.find? (fun tm => playerId ∈ tm.members)

/-- Core of `recordGoal` (`tournamentController.js:284-297`) acting on one
match: resolve the scorer's team, derive the benefiting team (the opponent on
an own goal), increment the matching score and append the goal record. -/
def recordGoalM (teams : List Team) (m : Match) (scorerId : Nat)
    (assistId : Option Nat) (isOwnGoal : Bool) : Except String Match :=
  match findTeamOf teams scorerId with
  | none => Except.error "Scorer is not part of any team in this match"
  | some scorerTeam =>
    let benefitingTeamId :=
      if isOwnGoal then (if scorerTeam.id = m.teamAId then m.teamBId else m.teamAId)
      else scorerTeam.id
    let m1 :=
      if benefitingTeamId = m.teamAId then { m with scoreA := m.scoreA + 1 }
      else { m with scoreB := m.scoreB + 1 }
    Except.ok { m1 with
      goals := m1.goals ++ [{ scorerId := scorerId, assistId := assistId, minute := 0,
                              isOwnGoal := isOwnGoal, teamId := benefitingTeamId }] }

/-- The request handler `recordGoal` (`tournamentController.js:274-307`):
tournament lookup, admin gate, match lookup, scorer existence check, then the
goal recording.  `users` is the set of stored user ids. -/
def recordGoalT (ts : List Tournament) (teams : List Team) (users : List Nat)
    (userId tid matchId scorerId : Nat) (assistId : Option Nat) (isOwnGoal : Bool) :
    Except String Tournament :=
  match findTournament ts tid with
  | none => Except.error "Tournament not found"
  | some t =>
    if t.adminId ≠ userId then Except.error "User not authorized"
    else
      match findMatch t matchId with
      | none => Except.error "Match not found"
      | some m =>
        if scorerId ∉ users then Except.error "Scorer not found"
        else (recordGoalM teams m scorerId assistId isOwnGoal).map (setMatch t matchId)

/-- Core of `recordCard` (`tournamentController.js:321-324`) acting on one
match: resolve the player's team and append the card record; no score
effect. -/
def recordCardM (teams : List Team) (m : Match) (playerId : Nat) (cardType : CardType) :
    Except String Match :=
  match findTeamOf teams playerId with
  | none => Except.error "Player is not part of any team"
  | some playerTeam =>
    Except.ok { m with
      cards := m.cards ++ [{ playerId := playerId, minute := 0, type := cardType,
                             teamId := playerTeam.id }] }

/-- The request handler `recordCard` (`tournamentController.js:311-334`). -/
def recordCardT (ts : List Tournament) (teams : List Team)
    (userId tid matchId playerId : Nat) (cardType : CardType) :
    Except String Tournament :=
  match findTournament ts tid with
  | none => Except.error "Tournament not found"
  | some t =>
    if t.adminId ≠ userId then Except.error "User not authorized"
    else
      match findMatch t matchId with
      | none => Except.error "Match not found"
      | some m => (recordCardM teams m playerId cardType).map (setMatch t matchId)

/-- The persisted state after a handler run: an `ok` result is the saved
document, an `error` result left the stored document untouched. -/
def persist (orig : α) : Except String α → α
  | Except.ok a => a
  | Except.error _ => orig

/-- C1: on finishing a match, unequal scores give the higher-scoring team the
win with penalties untouched; an equal-score non-knockout match is a draw
(`winnerId = none`) with penalties untouched; an equal-score knockout match
with two supplied non-equal penalty scores is won by the higher penalty score
and both penalty values are persisted as given. -/
theorem finish_outcome_resolution :
    (∀ (m : Match) (pA pB : Option Int), m.scoreA ≠ m.scoreB →
      updateMatchStatus m MatchStatus.Finished pA pB =
        Except.ok { m with
          status := MatchStatus.Finished
          winnerId := some (if m.scoreA > m.scoreB then m.teamAId else m.teamBId) }) ∧
    (∀ (m : Match) (pA pB : Option Int), m.scoreA = m.scoreB →
      m.round ∉ knockoutRounds →
      updateMatchStatus m MatchStatus.Finished pA pB =
        Except.ok { m with status := MatchStatus.Finished, winnerId := none }) ∧
    (∀ (m : Match) (a b : Int), m.scoreA = m.scoreB →
      m.round ∈ knockoutRounds → a ≠ b →
      updateMatchStatus m MatchStatus.Finished (some a) (some b) =
        Except.ok { m with
          status := MatchStatus.Finished
          penaltyScoreA := some a
          penaltyScoreB := some b
          winnerId := some (if a > b then m.teamAId else m.teamBId) }) := by
  refine ⟨?_, ?_, ?_⟩
  · intro m pA pB hne
    simp only [updateMatchStatus]
    rcases Nat.lt_or_ge m.scoreB m.scoreA with h | h
    · simp [h]
    · have h2 : m.scoreA < m.scoreB := by omega
      simp [updateMatchStatus, Nat.lt_asymm h2, h2]
  · intro m pA pB heq hko
    simp [updateMatchStatus, heq, hko]
  · intro m a b heq hko hne
    simp [updateMatchStatus, heq, hko, hne]

/-- Witness for `finish_outcome_resolution` at concrete matches. -/
theorem finish_outcome_resolution_witness :
    updateMatchStatus
        { id := 1, matchNumber := 1, teamAId := 10, teamBId := 20,
          scoreA := 2, scoreB := 1, round := "League Stage" }
        MatchStatus.Finished none none =
      Except.ok { id := 1, matchNumber := 1, teamAId := 10, teamBId := 20,
                  scoreA := 2, scoreB := 1, round := "League Stage",
                  status := MatchStatus.Finished, winnerId := some 10 } ∧
    updateMatchStatus
        { id := 2, matchNumber := 2, teamAId := 10, teamBId := 20,
          scoreA := 1, scoreB := 1, round := "League Stage" }
        MatchStatus.Finished none none =
      Except.ok { id := 2, matchNumber := 2, teamAId := 10, teamBId := 20,
                  scoreA := 1, scoreB := 1, round := "League Stage",
                  status := MatchStatus.Finished, winnerId := none } ∧
    updateMatchStatus
        { id := 3, matchNumber := 3, teamAId := 10, teamBId := 20,
          scoreA := 1, scoreB := 1, round := "Final" }
        MatchStatus.Finished (some 5) (some 4) =
      Except.ok { id := 3, matchNumber := 3, teamAId := 10, teamBId := 20,
                  scoreA := 1, scoreB := 1, round := "Final",
                  status := MatchStatus.Finished,
                  penaltyScoreA := some 5, penaltyScoreB := some 4,
                  winnerId := some 10 } := by
  refine ⟨?_, ?_, ?_⟩
  · have h := finish_outcome_resolution.1
      { id := 1, matchNumber := 1, teamAId := 10, teamBId := 20,
        scoreA := 2, scoreB := 1, round := "League Stage" } none none (by decide)
    simpa using h
  · have h := finish_outcome_resolution.2.1
      { id := 2, matchNumber := 2, teamAId := 10, teamBId := 20,
        scoreA := 1, scoreB := 1, round := "League Stage" } none none rfl (by decide)
    simpa using h
  · have h := finish_outcome_resolution.2.2
      { id := 3, matchNumber := 3, teamAId := 10, teamBId := 20,
        scoreA := 1, scoreB := 1, round := "Final" } 5 4 rfl (by decide) (by decide)
    simpa using h

/-- The round-robin double loop of `scheduleMatches`
(`tournamentController.js:148-157`): all ordered pairs `(teams[i], teams[j])`
with `i < j`, enumerated exactly in the loop order. -/
def schedulePairs : List Nat → List (Nat × Nat)
| [] => []
| x :: xs => xs.map (fun y => (x, y)) ++ schedulePairs xs

/-- A freshly generated fixture: only `matchNumber`, the two teams and the
round are supplied; every other field takes its `MatchSchema` default.  The
store-assigned subdocument id is modelled as the sequence number. -/
def newScheduledMatch (n a b : Nat) : Match :=
  { id := n, matchNumber := n, teamAId := a, teamBId := b, round := "League Stage" }

/-- Assign consecutive `matchNumber`s starting at `n` (the `matchNumber++`
counter of the loop). -/
def numberMatches (n : Nat) : List (Nat × Nat) → List Match
| [] => []
| p :: ps => newScheduledMatch n p.1 p.2 :: numberMatches (n + 1) ps

/-- The request handler `scheduleMatches` (`tournamentController.js:139-167`):
admin gate, a minimum of two teams, then the prior match list is cleared and
replaced by the freshly numbered round-robin schedule, and
`isSchedulingDone` is set. -/
def scheduleMatchesT (t : Tournament) (userId : Nat) : Except String Tournament :=
  if t.adminId ≠ userId then Except.error "User not authorized"
  else if t.teams.length < 2 then Except.error "Need at least 2 teams to schedule matches"
  else Except.ok { t with
    «matches» := numberMatches 1 (schedulePairs t.teams)
    isSchedulingDone := true }

/-- Boolean test for the unordered pair of team ids {x, y}. -/
def unorderedPairPred (a b x y : Nat) : Bool :=
  (x == a && y == b) || (x == b && y == a)

lemma schedulePairs_length (l : List Nat) :
    (schedulePairs l).length = Nat.choose l.length 2 := by
  induction l with
  | nil => rfl
  | cons x xs ih =>
    simp only [schedulePairs, List.length_append, List.length_map, ih, List.length_cons,
      Nat.choose_succ_succ, Nat.choose_one_right]

lemma schedulePairs_mem {l : List Nat} {p : Nat × Nat} (h : p ∈ schedulePairs l) :
    p.1 ∈ l ∧ p.2 ∈ l := by
  induction l with
  | nil => cases h
  | cons x xs ih =>
    simp only [schedulePairs, List.mem_append, List.mem_map] at h
    rcases h with ⟨y, hy, hp⟩ | h
    · cases hp
      exact ⟨List.mem_cons_self _ _, List.mem_cons_of_mem _ hy⟩
    · obtain ⟨h1, h2⟩ := ih h
      exact ⟨List.mem_cons_of_mem _ h1, List.mem_cons_of_mem _ h2⟩

lemma schedulePairs_countP {l : List Nat} (hnd : l.Nodup) {a b : Nat}
    (ha : a ∈ l) (hb : b ∈ l) (hne : a ≠ b) :
    (schedulePairs l).countP (fun p => unorderedPairPred a b p.1 p.2) = 1 := by
  induction l with
  | nil => cases ha
  | cons x xs ih =>
    rw [List.nodup_cons] at hnd
    obtain ⟨hx, hnd1⟩ := hnd
    simp only [schedulePairs, List.countP_append, List.countP_map]
    by_cases hxa : x = a
    · subst hxa
      have hbxs : b ∈ xs := by
        rcases List.mem_cons.mp hb with h | h
        · exact absurd h.symm hne
        · exact h
      have hmap : (xs.countP fun y => unorderedPairPred x b x y) = 1 := by
        rw [List.countP_congr (q := fun y => y == b)]
        · exact List.count_eq_one_of_mem hnd1 hbxs
        · intro y _
          simp [unorderedPairPred, hne]
      have hrest : ((schedulePairs xs).countP fun p => unorderedPairPred x b p.1 p.2) = 0 := by
        rw [List.countP_eq_zero]
        intro p hp
        obtain ⟨h1, h2⟩ := schedulePairs_mem hp
        simp only [unorderedPairPred, Bool.or_eq_true, Bool.and_eq_true, beq_iff_eq, not_or,
          not_and]
        constructor
        · intro hpa; exact absurd (hpa ▸ h1) hx
        · intro _ hpb; exact absurd (hpb ▸ h2) hx
      have hcomp : ((fun p : Nat × Nat => unorderedPairPred x b p.1 p.2) ∘ fun y => (x, y)) =
          fun y => unorderedPairPred x b x y := rfl
      rw [hcomp, hmap, hrest]
    · by_cases hxb : x = b
      · subst hxb
        have haxs : a ∈ xs := by
          rcases List.mem_cons.mp ha with h | h
          · exact absurd h hne
          · exact h
        have hmap : (xs.countP fun y => unorderedPairPred a x x y) = 1 := by
          rw [List.countP_congr (q := fun y => y == a)]
          · exact List.count_eq_one_of_mem hnd1 haxs
          · intro y _
            have : ¬ x = a := hxa
            simp [unorderedPairPred, this]
        have hrest : ((schedulePairs xs).countP fun p => unorderedPairPred a x p.1 p.2) = 0 := by
          rw [List.countP_eq_zero]
          intro p hp
          obtain ⟨h1, h2⟩ := schedulePairs_mem hp
          simp only [unorderedPairPred, Bool.or_eq_true, Bool.and_eq_true, beq_iff_eq, not_or,
            not_and]
          constructor
          · intro _; intro hpb; exact absurd (hpb ▸ h2) hx
          · intro hpb; exact absurd (hpb ▸ h1) hx
        have hcomp : ((fun p : Nat × Nat => unorderedPairPred a x p.1 p.2) ∘ fun y => (x, y)) =
            fun y => unorderedPairPred a x x y := rfl
        rw [hcomp, hmap, hrest]
      · have hmap : (xs.countP fun y => unorderedPairPred a b x y) = 0 := by
          rw [List.countP_eq_zero]
          intro y _
          simp [unorderedPairPred, hxa, hxb]
        have haxs : a ∈ xs := by
          rcases List.mem_cons.mp ha with h | h
          · exact absurd h (fun he => hxa he.symm)
          · exact h
        have hbxs : b ∈ xs := by
          rcases List.mem_cons.mp hb with h | h
          · exact absurd h (fun he => hxb he.symm)
          · exact h
        have hcomp : ((fun p : Nat × Nat => unorderedPairPred a b p.1 p.2) ∘ fun y => (x, y)) =
            fun y => unorderedPairPred a b x y := rfl
        rw [hcomp, hmap, ih hnd1 haxs hbxs]

lemma numberMatches_length (n : Nat) (ps : List (Nat × Nat)) :
    (numberMatches n ps).length = ps.length := by
  induction ps generalizing n with
  | nil => rfl
  | cons p ps ih => simp [numberMatches, ih]

lemma numberMatches_map_teams (n : Nat) (ps : List (Nat × Nat)) :
    (numberMatches n ps).map (fun m => (m.teamAId, m.teamBId)) = ps := by
  induction ps generalizing n with
  | nil => rfl
  | cons p ps ih => simp [numberMatches, newScheduledMatch, ih]

lemma numberMatches_map_num (n : Nat) (ps : List (Nat × Nat)) :
    (numberMatches n ps).map Match.matchNumber = List.range' n ps.length := by
  induction ps generalizing n with
  | nil => rfl
  | cons p ps ih => simp [numberMatches, newScheduledMatch, List.range'_succ, ih]

lemma numberMatches_countP (a b n : Nat) (ps : List (Nat × Nat)) :
    (numberMatches n ps).countP (fun m => unorderedPairPred a b m.teamAId m.teamBId) =
      ps.countP (fun p => unorderedPairPred a b p.1 p.2) := by
  induction ps generalizing n with
  | nil => rfl
  | cons p ps ih => simp [numberMatches, newScheduledMatch, List.countP_cons, ih]

lemma numberMatches_fields {n : Nat} {ps : List (Nat × Nat)} :
    ∀ m ∈ numberMatches n ps, m.round = "League Stage" ∧
      m.status = MatchStatus.Scheduled ∧ m.scoreA = 0 ∧ m.scoreB = 0 ∧
      m.goals = [] ∧ m.cards = [] ∧ m.winnerId = none ∧
      m.penaltyScoreA = none ∧ m.penaltyScoreB = none := by
  induction ps generalizing n with
  | nil => intro m hm; cases hm
  | cons p ps ih =>
    intro m hm
    rcases List.mem_cons.mp hm with h | h
    · subst h; exact ⟨rfl, rfl, rfl, rfl, rfl, rfl, rfl, rfl, rfl⟩
    · exact ih m h

/-- C4: for an admin-invoked schedule of a tournament with `N ≥ 2` distinct
teams, fixture generation succeeds and yields exactly `N (N-1) / 2` matches:
their team pairs are precisely the double-loop enumeration over indices
`i < j`, the sequence numbers are exactly `1, 2, ..., N (N-1) / 2` in order,
each unordered pair of distinct participating teams occurs in exactly one
match, and every generated match is a "League Stage", `Scheduled` match with
zero scores and empty goal and card lists. -/
theorem schedule_round_robin (t : Tournament) (userId : Nat)
    (hadmin : t.adminId = userId) (h2 : 2 ≤ t.teams.length) (hnd : t.teams.Nodup) :
    ∃ t1, scheduleMatchesT t userId = Except.ok t1 ∧
      t1.matches.length = t.teams.length * (t.teams.length - 1) / 2 ∧
      t1.matches.map (fun m => (m.teamAId, m.teamBId)) = schedulePairs t.teams ∧
      t1.matches.map Match.matchNumber = List.range' 1 t1.matches.length ∧
      (∀ a b, a ∈ t.teams → b ∈ t.teams → a ≠ b →
        t1.matches.countP (fun m => unorderedPairPred a b m.teamAId m.teamBId) = 1) ∧
      (∀ m ∈ t1.matches, m.round = "League Stage" ∧ m.status = MatchStatus.Scheduled ∧
        m.scoreA = 0 ∧ m.scoreB = 0 ∧ m.goals = [] ∧ m.cards = []) ∧
      t1.isSchedulingDone = true := by
  refine ⟨{ t with
            «matches» := numberMatches 1 (schedulePairs t.teams)
            isSchedulingDone := true }, ?_, ?_, ?_, ?_, ?_, ?_, rfl⟩
  · simp [scheduleMatchesT, hadmin, Nat.not_lt.mpr h2]
  · simp only [numberMatches_length, schedulePairs_length]
    exact Nat.choose_two_right _
  · exact numberMatches_map_teams 1 _
  · rw [numberMatches_map_num, numberMatches_length]
  · intro a b ha hb hne
    rw [numberMatches_countP]
    exact schedulePairs_countP hnd ha hb hne
  · intro m hm
    obtain ⟨h1, h2, h3, h4, h5, h6, _⟩ := numberMatches_fields m hm
    exact ⟨h1, h2, h3, h4, h5, h6⟩

/-- Witness for `schedule_round_robin` on a concrete three-team tournament. -/
theorem schedule_round_robin_witness :
    ∃ t1, scheduleMatchesT
        { id := 1, adminId := 7, teams := [10, 20, 30], «matches» := [],
          inviteCode := "ABCDEFGHIJ" } 7 = Except.ok t1 ∧
      t1.matches.length = 3 * (3 - 1) / 2 ∧
      t1.matches.map (fun m => (m.teamAId, m.teamBId)) = schedulePairs [10, 20, 30] ∧
      t1.matches.map Match.matchNumber = List.range' 1 t1.matches.length ∧
      (∀ a b, a ∈ [10, 20, 30] → b ∈ [10, 20, 30] → a ≠ b →
        t1.matches.countP (fun m => unorderedPairPred a b m.teamAId m.teamBId) = 1) ∧
      (∀ m ∈ t1.matches, m.round = "League Stage" ∧ m.status = MatchStatus.Scheduled ∧
        m.scoreA = 0 ∧ m.scoreB = 0 ∧ m.goals = [] ∧ m.cards = []) ∧
      t1.isSchedulingDone = true :=
  schedule_round_robin
    { id := 1, adminId := 7, teams := [10, 20, 30], «matches» := [],
      inviteCode := "ABCDEFGHIJ" } 7 rfl (by decide) (by decide)

/-- C6: rescheduling ignores every existing match: for two tournaments with
the same current team list (one of which may carry an arbitrary prior match
list, with goals, cards and scores), regeneration succeeds on both and
produces identical fresh match lists of cardinality `N (N-1) / 2`, setting
`isSchedulingDone` on both. -/
theorem reschedule_discards_prior_matches (t1 t2 : Tournament) (u1 u2 : Nat)
    (ha1 : t1.adminId = u1) (ha2 : t2.adminId = u2) (hteams : t1.teams = t2.teams)
    (h2 : 2 ≤ t1.teams.length) :
    ∃ s1 s2, scheduleMatchesT t1 u1 = Except.ok s1 ∧
      scheduleMatchesT t2 u2 = Except.ok s2 ∧
      s1.matches = s2.matches ∧
      s1.matches = numberMatches 1 (schedulePairs t1.teams) ∧
      s1.matches.length = t1.teams.length * (t1.teams.length - 1) / 2 ∧
      s1.isSchedulingDone = true ∧ s2.isSchedulingDone = true := by
  refine ⟨{ t1 with
            «matches» := numberMatches 1 (schedulePairs t1.teams)
            isSchedulingDone := true },
          { t2 with
            «matches» := numberMatches 1 (schedulePairs t2.teams)
            isSchedulingDone := true }, ?_, ?_, ?_, rfl, ?_, rfl, rfl⟩
  · simp [scheduleMatchesT, ha1, Nat.not_lt.mpr h2]
  · simp [scheduleMatchesT, ha2, Nat.not_lt.mpr (hteams ▸ h2)]
  · simp [hteams]
  · simp only [numberMatches_length, schedulePairs_length]
    exact Nat.choose_two_right _

/-- Witness for `reschedule_discards_prior_matches`: the second tournament
carries a finished match with goals which regeneration discards. -/
theorem reschedule_discards_prior_matches_witness :
    ∃ s1 s2, scheduleMatchesT
        { id := 1, adminId := 7, teams := [10, 20], «matches» := [],
          inviteCode := "ABCDEFGHIJ" } 7 = Except.ok s1 ∧
      scheduleMatchesT
        { id := 2, adminId := 8, teams := [10, 20],
          «matches» := [{ id := 5, matchNumber := 1, teamAId := 10, teamBId := 20,
                          scoreA := 3, scoreB := 1, round := "League Stage",
                          status := MatchStatus.Finished,
                          goals := [{ scorerId := 77, assistId := none, minute := 0,
                                      isOwnGoal := false, teamId := 10 }],
                          winnerId := some 10 }],
          inviteCode := "KLMNOPQRST" } 8 = Except.ok s2 ∧
      s1.matches = s2.matches ∧
      s1.matches = numberMatches 1 (schedulePairs [10, 20]) ∧
      s1.matches.length = 2 * (2 - 1) / 2 ∧
      s1.isSchedulingDone = true ∧ s2.isSchedulingDone = true :=
  reschedule_discards_prior_matches
    { id := 1, adminId := 7, teams := [10, 20], «matches» := [],
      inviteCode := "ABCDEFGHIJ" }
    { id := 2, adminId := 8, teams := [10, 20],
      «matches» := [{ id := 5, matchNumber := 1, teamAId := 10, teamBId := 20,
                      scoreA := 3, scoreB := 1, round := "League Stage",
                      status := MatchStatus.Finished,
                      goals := [{ scorerId := 77, assistId := none, minute := 0,
                                  isOwnGoal := false, teamId := 10 }],
                      winnerId := some 10 }],
      inviteCode := "KLMNOPQRST" } 7 8 rfl rfl rfl (by decide)

/-- C3: a goal recorded for a scorer whose resolved roster team is team A of
the match credits team B when it is an own goal (only `scoreB` increments and
the appended goal record carries team B's id) and team A otherwise (only
`scoreA` increments and the record carries team A's id). -/
theorem record_goal_attribution (teams : List Team) (m : Match) (scorerId : Nat)
    (assistId : Option Nat) (isOwnGoal : Bool) (tA : Team)
    (hfind : findTeamOf teams scorerId = some tA) (hA : tA.id = m.teamAId)
    (hAB : m.teamAId ≠ m.teamBId) :
    ∃ m1 g, recordGoalM teams m scorerId assistId isOwnGoal = Except.ok m1 ∧
      m1.goals = m.goals ++ [g] ∧
      g.teamId = (if isOwnGoal then m.teamBId else m.teamAId) ∧
      m1.scoreA = (if isOwnGoal then m.scoreA else m.scoreA + 1) ∧
      m1.scoreB = (if isOwnGoal then m.scoreB + 1 else m.scoreB) := by
  cases isOwnGoal with
  | false =>
    refine ⟨{ m with
              scoreA := m.scoreA + 1
              goals := m.goals ++ [{ scorerId := scorerId, assistId := assistId, minute := 0,
                                     isOwnGoal := false, teamId := tA.id }] },
            { scorerId := scorerId, assistId := assistId, minute := 0,
              isOwnGoal := false, teamId := tA.id }, ?_, rfl, ?_, ?_, ?_⟩
    · simp [recordGoalM, hfind, hA]
    · simpa using hA
    · simp
    · simp
  | true =>
    refine ⟨{ m with
              scoreB := m.scoreB + 1
              goals := m.goals ++ [{ scorerId := scorerId, assistId := assistId, minute := 0,
                                     isOwnGoal := true, teamId := m.teamBId }] },
            { scorerId := scorerId, assistId := assistId, minute := 0,
              isOwnGoal := true, teamId := m.teamBId }, ?_, rfl, ?_, ?_, ?_⟩
    · simp [recordGoalM, hfind, hA, Ne.symm hAB]
    · simp
    · simp
    · simp

/-- Witness for `record_goal_attribution`: an own goal by a member of team 1
(team A) credits team 2. -/
theorem record_goal_attribution_witness :
    ∃ m1 g, recordGoalM
        [{ id := 1, adminIds := [100], members := [10, 11], inviteCode := "AAAA1111" },
         { id := 2, adminIds := [200], members := [20], inviteCode := "BBBB2222" }]
        { id := 5, matchNumber := 1, teamAId := 1, teamBId := 2, round := "League Stage" }
        10 none true = Except.ok m1 ∧
      m1.goals =
        ({ id := 5, matchNumber := 1, teamAId := 1, teamBId := 2,
           round := "League Stage" } : Match).goals ++ [g] ∧
      g.teamId = (if true then 2 else 1) ∧
      m1.scoreA = (if true then 0 else 0 + 1) ∧
      m1.scoreB = (if true then 0 + 1 else 0) :=
  record_goal_attribution
    [{ id := 1, adminIds := [100], members := [10, 11], inviteCode := "AAAA1111" },
     { id := 2, adminIds := [200], members := [20], inviteCode := "BBBB2222" }]
    { id := 5, matchNumber := 1, teamAId := 1, teamBId := 2, round := "League Stage" }
    10 none true
    { id := 1, adminIds := [100], members := [10, 11], inviteCode := "AAAA1111" }
    (by decide) rfl (by decide)

/-- The number of recorded goals in the match credited to team `tid`. -/
def goalCount (m : Match) (tid : Nat) : Nat :=
  (m.goals.filter (fun g => g.teamId == tid)).length

/-- C10's invariant: each score equals the number of goal records credited to
the corresponding team. -/
def ScoreInvariant (m : Match) : Prop :=
  m.scoreA = goalCount m m.teamAId ∧ m.scoreB = goalCount m m.teamBId

instance (m : Match) : Decidable (ScoreInvariant m) :=
  inferInstanceAs (Decidable (m.scoreA = goalCount m m.teamAId ∧
    m.scoreB = goalCount m m.teamBId))

lemma updateMatchStatus_ok_fields {m : Match} {st : MatchStatus} {pA pB : Option Int}
    {m1 : Match} (h : updateMatchStatus m st pA pB = Except.ok m1) :
    m1.id = m.id ∧ m1.matchNumber = m.matchNumber ∧ m1.teamAId = m.teamAId ∧
    m1.teamBId = m.teamBId ∧ m1.scoreA = m.scoreA ∧ m1.scoreB = m.scoreB ∧
    m1.goals = m.goals ∧ m1.cards = m.cards ∧ m1.round = m.round ∧ m1.status = st := by
  simp only [updateMatchStatus] at h
  repeat' split at h
  all_goals cases h
  all_goals exact ⟨rfl, rfl, rfl, rfl, rfl, rfl, rfl, rfl, rfl, rfl⟩

/-- Counterexample to C10 as stated: with a third stored team whose member
scores a regular goal in a match between teams 1 and 2, `recordGoal` is
accepted, increments `scoreB`, yet appends a goal record carrying team 3's
id, so the score/ledger invariant breaks on a match that satisfied it. -/
theorem score_ledger_invariant_cex :
    ScoreInvariant
      { id := 5, matchNumber := 1, teamAId := 1, teamBId := 2, round := "League Stage" } ∧
    (recordGoalM
        [{ id := 1, adminIds := [100], members := [10], inviteCode := "AAAA1111" },
         { id := 2, adminIds := [200], members := [20], inviteCode := "BBBB2222" },
         { id := 3, adminIds := [300], members := [30], inviteCode := "CCCC3333" }]
        { id := 5, matchNumber := 1, teamAId := 1, teamBId := 2, round := "League Stage" }
        30 none false).isOk = true ∧
    ¬ ScoreInvariant
      (persist { id := 5, matchNumber := 1, teamAId := 1, teamBId := 2, round := "League Stage" }
        (recordGoalM
          [{ id := 1, adminIds := [100], members := [10], inviteCode := "AAAA1111" },
           { id := 2, adminIds := [200], members := [20], inviteCode := "BBBB2222" },
           { id := 3, adminIds := [300], members := [30], inviteCode := "CCCC3333" }]
          { id := 5, matchNumber := 1, teamAId := 1, teamBId := 2, round := "League Stage" }
          30 none false)) := by
  refine ⟨by decide, rfl, by decide⟩

/-- C10 (amended): the invariant `scoreA = #{goals credited to team A}` and
`scoreB = #{goals credited to team B}` holds for freshly generated fixtures
and is preserved by `recordCard` and by every successful status update; it is
preserved by `recordGoal` provided the scorer's resolved team is one of the
two (distinct) teams of the match — the code does not enforce that proviso,
and `score_ledger_invariant_cex` shows it breaking otherwise. -/
theorem score_ledger_invariant :
    (∀ n a b, ScoreInvariant (newScheduledMatch n a b)) ∧
    (∀ (teams : List Team) (m : Match) (scorerId : Nat) (assistId : Option Nat)
       (isOwnGoal : Bool) (m1 : Match) (tS : Team),
      m.teamAId ≠ m.teamBId →
      findTeamOf teams scorerId = some tS →
      tS.id = m.teamAId ∨ tS.id = m.teamBId →
      recordGoalM teams m scorerId assistId isOwnGoal = Except.ok m1 →
      ScoreInvariant m → ScoreInvariant m1) ∧
    (∀ (teams : List Team) (m : Match) (playerId : Nat) (cardType : CardType) (m1 : Match),
      recordCardM teams m playerId cardType = Except.ok m1 →
      ScoreInvariant m → ScoreInvariant m1) ∧
    (∀ (m : Match) (st : MatchStatus) (pA pB : Option Int) (m1 : Match),
      updateMatchStatus m st pA pB = Except.ok m1 →
      ScoreInvariant m → ScoreInvariant m1) := by
  refine ⟨?_, ?_, ?_, ?_⟩
  · intro n a b
    constructor <;> rfl
  · intro teams m scorerId assistId isOwnGoal m1 tS hAB hfind hside hok hinv
    simp only [recordGoalM, hfind] at hok
    obtain ⟨hA, hB⟩ := hinv
    rcases hside with hS | hS <;> cases isOwnGoal <;>
      simp only [if_true, if_false, Bool.false_eq_true, ite_false, ite_true, hS] at hok
    · -- scorer on team A, regular goal: benefiting team is team A
      cases hok
      simp [ScoreInvariant, goalCount, List.filter_append, hA, hB, hAB, Ne.symm hAB]
    · -- scorer on team A, own goal: benefiting team is team B
      simp only [if_neg (Ne.symm hAB)] at hok
      cases hok
      simp [ScoreInvariant, goalCount, List.filter_append, hA, hB, hAB, Ne.symm hAB]
    · -- scorer on team B, regular goal: benefiting team is team B
      simp only [if_neg (Ne.symm hAB)] at hok
      cases hok
      simp [ScoreInvariant, goalCount, List.filter_append, hA, hB, hAB, Ne.symm hAB]
    · -- scorer on team B, own goal: benefiting team is team A
      simp only [if_neg (Ne.symm hAB)] at hok
      cases hok
      simp [ScoreInvariant, goalCount, List.filter_append, hA, hB, hAB, Ne.symm hAB]
  · intro teams m playerId cardType m1 hok hinv
    cases hfind : findTeamOf teams playerId with
    | none => simp [recordCardM, hfind] at hok
    | some pt =>
      simp only [recordCardM, hfind] at hok
      cases hok
      exact hinv
  · intro m st pA pB m1 hok hinv
    obtain ⟨_, _, hta, htb, hsa, hsb, hg, _, _, _⟩ := updateMatchStatus_ok_fields hok
    unfold ScoreInvariant goalCount at hinv ⊢
    rw [hta, htb, hsa, hsb, hg]
    exact hinv

/-- Witness for `score_ledger_invariant`: the goal-recording conjunct applied
to a member of team A of the match. -/
theorem score_ledger_invariant_witness :
    ∃ m1, recordGoalM
        [{ id := 1, adminIds := [100], members := [10], inviteCode := "AAAA1111" },
         { id := 2, adminIds := [200], members := [20], inviteCode := "BBBB2222" }]
        { id := 5, matchNumber := 1, teamAId := 1, teamBId := 2, round := "League Stage" }
        10 none false = Except.ok m1 ∧ ScoreInvariant m1 := by
  refine ⟨persist
      { id := 5, matchNumber := 1, teamAId := 1, teamBId := 2, round := "League Stage" }
      (recordGoalM
        [{ id := 1, adminIds := [100], members := [10], inviteCode := "AAAA1111" },
         { id := 2, adminIds := [200], members := [20], inviteCode := "BBBB2222" }]
        { id := 5, matchNumber := 1, teamAId := 1, teamBId := 2, round := "League Stage" }
        10 none false), rfl, ?_⟩
  refine score_ledger_invariant.2.1
    [{ id := 1, adminIds := [100], members := [10], inviteCode := "AAAA1111" },
     { id := 2, adminIds := [200], members := [20], inviteCode := "BBBB2222" }]
    { id := 5, matchNumber := 1, teamAId := 1, teamBId := 2, round := "League Stage" }
    10 none false _
    { id := 1, adminIds := [100], members := [10], inviteCode := "AAAA1111" }
    (by decide) (by decide) (Or.inl rfl) rfl (by decide)

lemma find?_map_replace (l : List Match) (matchId : Nat) (m2 : Match)
    (hex : ∃ x ∈ l, (x.id == matchId) = true) (hid : (m2.id == matchId) = true) :
    (l.map (fun x => if x.id == matchId then m2 else x)).find? (fun x => x.id == matchId) =
      some m2 := by
  induction l with
  | nil => simp at hex
  | cons y ys ih =>
    simp only [List.map_cons]
    by_cases hy : (y.id == matchId) = true
    · rw [if_pos hy]
      simp only [List.find?_cons, hid]
    · have hyf : (y.id == matchId) = false := by
        simpa using hy
      have hex1 : ∃ x ∈ ys, (x.id == matchId) = true := by
        rcases hex with ⟨x, hx, hxid⟩
        rcases List.mem_cons.mp hx with h | h
        · exact absurd (h ▸ hxid) hy
        · exact ⟨x, h, hxid⟩
      rw [if_neg hy]
      simp only [List.find?_cons, hyf]
      exact ih hex1

lemma findMatch_setMatch {t : Tournament} {matchId : Nat} {m m2 : Match}
    (hfind : findMatch t matchId = some m) (hid : m2.id = m.id) :
    findMatch (setMatch t matchId m2) matchId = some m2 := by
  have hfind1 : t.matches.find? (fun x => x.id == matchId) = some m := hfind
  have hmid := List.find?_some hfind1
  have hmem := List.mem_of_find?_eq_some hfind1
  unfold findMatch setMatch
  exact find?_map_replace t.matches matchId m2 ⟨m, hmem, hmid⟩ (by
    show (m2.id == matchId) = true
    rw [hid]
    exact hmid)

/-- Counterexample to C8 as stated: the status endpoint happily moves a
`Finished` match back to `Live` — no forward-only guard exists. -/
theorem status_backwards_transition_cex :
    (findMatch
      { id := 1, adminId := 7, teams := [10, 20],
        «matches» := [{ id := 5, matchNumber := 1, teamAId := 10, teamBId := 20,
                        scoreA := 2, scoreB := 1, round := "League Stage",
                        status := MatchStatus.Finished, winnerId := some 10 }],
        inviteCode := "ABCDEFGHIJ" } 5).map Match.status = some MatchStatus.Finished ∧
    (updateMatchStatusT
      [{ id := 1, adminId := 7, teams := [10, 20],
         «matches» := [{ id := 5, matchNumber := 1, teamAId := 10, teamBId := 20,
                         scoreA := 2, scoreB := 1, round := "League Stage",
                         status := MatchStatus.Finished, winnerId := some 10 }],
         inviteCode := "ABCDEFGHIJ" }] 7 1 5 MatchStatus.Live none none).map
      (fun t => (findMatch t 5).map Match.status) =
        Except.ok (some MatchStatus.Live) := by
  exact ⟨rfl, rfl⟩

/-- C8 (amended): the status endpoint performs no transition check: whenever
`updateMatchStatusT` succeeds, the targeted match's status afterwards is
exactly the caller-supplied status, regardless of the previous status — so
backward transitions (e.g. `Finished` to `Live`) are exposed. -/
theorem status_assignment_unguarded {ts : List Tournament} {userId tid matchId : Nat}
    {st : MatchStatus} {pA pB : Option Int} {t1 : Tournament}
    (hok : updateMatchStatusT ts userId tid matchId st pA pB = Except.ok t1) :
    ∃ m2, findMatch t1 matchId = some m2 ∧ m2.status = st := by
  unfold updateMatchStatusT at hok
  split at hok
  · cases hok
  · rename_i t ht
    split at hok
    · cases hok
    · split at hok
      · cases hok
      · rename_i m hm
        cases hup : updateMatchStatus m st pA pB with
        | error e => rw [hup] at hok; cases hok
        | ok m2 =>
          rw [hup] at hok
          cases hok
          obtain ⟨hid, _, _, _, _, _, _, _, _, hst⟩ := updateMatchStatus_ok_fields hup
          exact ⟨m2, findMatch_setMatch hm hid, hst⟩

/-- Witness for `status_assignment_unguarded`: a `Finished` match explicitly
set back to `Scheduled`. -/
theorem status_assignment_unguarded_witness :
    ∃ m2, findMatch
        (persist
          { id := 1, adminId := 7, teams := [10, 20],
            «matches» := [{ id := 5, matchNumber := 1, teamAId := 10, teamBId := 20,
                            scoreA := 2, scoreB := 1, round := "League Stage",
                            status := MatchStatus.Finished, winnerId := some 10 }],
            inviteCode := "ABCDEFGHIJ" }
          (updateMatchStatusT
            [{ id := 1, adminId := 7, teams := [10, 20],
               «matches» := [{ id := 5, matchNumber := 1, teamAId := 10, teamBId := 20,
                               scoreA := 2, scoreB := 1, round := "League Stage",
                               status := MatchStatus.Finished, winnerId := some 10 }],
               inviteCode := "ABCDEFGHIJ" }] 7 1 5 MatchStatus.Scheduled none none))
        5 = some m2 ∧ m2.status = MatchStatus.Scheduled :=
  @status_assignment_unguarded
    [{ id := 1, adminId := 7, teams := [10, 20],
       «matches» := [{ id := 5, matchNumber := 1, teamAId := 10, teamBId := 20,
                       scoreA := 2, scoreB := 1, round := "League Stage",
                       status := MatchStatus.Finished, winnerId := some 10 }],
       inviteCode := "ABCDEFGHIJ" }] 7 1 5 MatchStatus.Scheduled none none
    (persist
      { id := 1, adminId := 7, teams := [10, 20],
        «matches» := [{ id := 5, matchNumber := 1, teamAId := 10, teamBId := 20,
                        scoreA := 2, scoreB := 1, round := "League Stage",
                        status := MatchStatus.Finished, winnerId := some 10 }],
        inviteCode := "ABCDEFGHIJ" }
      (updateMatchStatusT
        [{ id := 1, adminId := 7, teams := [10, 20],
           «matches» := [{ id := 5, matchNumber := 1, teamAId := 10, teamBId := 20,
                           scoreA := 2, scoreB := 1, round := "League Stage",
                           status := MatchStatus.Finished, winnerId := some 10 }],
           inviteCode := "ABCDEFGHIJ" }] 7 1 5 MatchStatus.Scheduled none none))
    rfl

/-- Counterexample to C2 as stated: the backend only checks that penalty
scores are present (numeric) and non-equal — two negative penalty scores are
accepted and persisted, so a finish with negative penalties is not
rejected. -/
theorem finish_negative_penalties_accepted_cex :
    updateMatchStatus
        { id := 1, matchNumber := 1, teamAId := 10, teamBId := 20,
          scoreA := 1, scoreB := 1, round := "Final" }
        MatchStatus.Finished (some (-1)) (some (-2)) =
      Except.ok { id := 1, matchNumber := 1, teamAId := 10, teamBId := 20,
                  scoreA := 1, scoreB := 1, round := "Final",
                  status := MatchStatus.Finished,
                  penaltyScoreA := some (-1), penaltyScoreB := some (-2),
                  winnerId := some 10 } := rfl

/-- C2 (amended): finishing a drawn knockout match with a missing or equal
penalty score is rejected with the validation error and the persisted
tournament is unchanged.  (Negative penalty scores are accepted by the
backend — see `finish_negative_penalties_accepted_cex`; only the live-scoring
UI checks non-negativity.) -/
theorem finish_knockout_draw_validation (ts : List Tournament)
    (userId tid matchId : Nat) (pA pB : Option Int) (t : Tournament) (m : Match)
    (ht : findTournament ts tid = some t) (hadmin : t.adminId = userId)
    (hm : findMatch t matchId = some m)
    (heq : m.scoreA = m.scoreB) (hko : m.round ∈ knockoutRounds)
    (hbad : pA = none ∨ pB = none ∨ pA = pB) :
    updateMatchStatusT ts userId tid matchId MatchStatus.Finished pA pB =
      Except.error "Valid, non-equal penalty scores are required for a knockout draw." ∧
    persist t (updateMatchStatusT ts userId tid matchId MatchStatus.Finished pA pB) = t := by
  have herr : updateMatchStatus m MatchStatus.Finished pA pB =
      Except.error "Valid, non-equal penalty scores are required for a knockout draw." := by
    rcases hbad with h | h | h
    · subst h
      cases pB <;> simp [updateMatchStatus, heq, hko]
    · subst h
      cases pA <;> simp [updateMatchStatus, heq, hko]
    · cases pA with
      | none => rw [← h]; simp [updateMatchStatus, heq, hko]
      | some a => rw [← h]; simp [updateMatchStatus, heq, hko]
  have h1 : updateMatchStatusT ts userId tid matchId MatchStatus.Finished pA pB =
      Except.error "Valid, non-equal penalty scores are required for a knockout draw." := by
    simp [updateMatchStatusT, ht, hadmin, hm, herr, Except.map]
  exact ⟨h1, by rw [h1]; rfl⟩

/-- Witness for `finish_knockout_draw_validation`: a drawn "Final" finished
with no penalty scores supplied is rejected and the stored tournament is
untouched. -/
theorem finish_knockout_draw_validation_witness :
    updateMatchStatusT
        [{ id := 1, adminId := 7, teams := [10, 20],
           «matches» := [{ id := 5, matchNumber := 1, teamAId := 10, teamBId := 20,
                           scoreA := 1, scoreB := 1, round := "Final",
                           status := MatchStatus.Live }],
           inviteCode := "ABCDEFGHIJ" }] 7 1 5 MatchStatus.Finished none none =
      Except.error "Valid, non-equal penalty scores are required for a knockout draw." ∧
    persist
        { id := 1, adminId := 7, teams := [10, 20],
          «matches» := [{ id := 5, matchNumber := 1, teamAId := 10, teamBId := 20,
                          scoreA := 1, scoreB := 1, round := "Final",
                          status := MatchStatus.Live }],
          inviteCode := "ABCDEFGHIJ" }
        (updateMatchStatusT
          [{ id := 1, adminId := 7, teams := [10, 20],
             «matches» := [{ id := 5, matchNumber := 1, teamAId := 10, teamBId := 20,
                             scoreA := 1, scoreB := 1, round := "Final",
                             status := MatchStatus.Live }],
             inviteCode := "ABCDEFGHIJ" }] 7 1 5 MatchStatus.Finished none none) =
      { id := 1, adminId := 7, teams := [10, 20],
        «matches» := [{ id := 5, matchNumber := 1, teamAId := 10, teamBId := 20,
                        scoreA := 1, scoreB := 1, round := "Final",
                        status := MatchStatus.Live }],
        inviteCode := "ABCDEFGHIJ" } :=
  finish_knockout_draw_validation
    [{ id := 1, adminId := 7, teams := [10, 20],
       «matches» := [{ id := 5, matchNumber := 1, teamAId := 10, teamBId := 20,
                       scoreA := 1, scoreB := 1, round := "Final",
                       status := MatchStatus.Live }],
       inviteCode := "ABCDEFGHIJ" }] 7 1 5 none none
    { id := 1, adminId := 7, teams := [10, 20],
      «matches» := [{ id := 5, matchNumber := 1, teamAId := 10, teamBId := 20,
                      scoreA := 1, scoreB := 1, round := "Final",
                      status := MatchStatus.Live }],
      inviteCode := "ABCDEFGHIJ" }
    { id := 5, matchNumber := 1, teamAId := 10, teamBId := 20,
      scoreA := 1, scoreB := 1, round := "Final", status := MatchStatus.Live }
    rfl rfl rfl rfl (by decide) (Or.inl rfl)

/-- Counterexample to C7 as stated: scorer 30 belongs to stored team 3 and to
neither team of the match (teams 1 and 2, with rosters [10] and [20]), yet
`recordGoal` is accepted — the membership check only requires membership in
some stored team, despite its error message. -/
theorem record_goal_outside_team_accepted_cex :
    (findMatch
      { id := 1, adminId := 7, teams := [1, 2],
        «matches» := [{ id := 5, matchNumber := 1, teamAId := 1, teamBId := 2,
                        round := "League Stage" }],
        inviteCode := "ABCDEFGHIJ" } 5).map (fun m => (m.teamAId, m.teamBId)) =
      some (1, 2) ∧
    (findTeamOf
      [{ id := 1, adminIds := [100], members := [10], inviteCode := "AAAA1111" },
       { id := 2, adminIds := [200], members := [20], inviteCode := "BBBB2222" },
       { id := 3, adminIds := [300], members := [30], inviteCode := "CCCC3333" }]
      30).map Team.id = some 3 ∧
    (recordGoalT
      [{ id := 1, adminId := 7, teams := [1, 2],
         «matches» := [{ id := 5, matchNumber := 1, teamAId := 1, teamBId := 2,
                         round := "League Stage" }],
         inviteCode := "ABCDEFGHIJ" }]
      [{ id := 1, adminIds := [100], members := [10], inviteCode := "AAAA1111" },
       { id := 2, adminIds := [200], members := [20], inviteCode := "BBBB2222" },
       { id := 3, adminIds := [300], members := [30], inviteCode := "CCCC3333" }]
      [30] 7 1 5 30 none false).isOk = true :=
  ⟨rfl, rfl, rfl⟩

/-- C7 (amended): `recordGoal`/`recordCard` are rejected with the
"not part of any team" message exactly when the scorer/player belongs to no
stored team at all (not merely to neither match team), leaving the stored
tournament unchanged; a missing tournament or match yields the corresponding
not-found error. -/
theorem event_recording_errors :
    (∀ (ts : List Tournament) (teams : List Team) (users : List Nat)
       (userId tid matchId scorerId : Nat) (assistId : Option Nat) (isOwnGoal : Bool),
      findTournament ts tid = none →
      recordGoalT ts teams users userId tid matchId scorerId assistId isOwnGoal =
        Except.error "Tournament not found") ∧
    (∀ (ts : List Tournament) (teams : List Team) (users : List Nat)
       (userId tid matchId scorerId : Nat) (assistId : Option Nat) (isOwnGoal : Bool)
       (t : Tournament),
      findTournament ts tid = some t → t.adminId = userId → findMatch t matchId = none →
      recordGoalT ts teams users userId tid matchId scorerId assistId isOwnGoal =
        Except.error "Match not found") ∧
    (∀ (ts : List Tournament) (teams : List Team) (users : List Nat)
       (userId tid matchId scorerId : Nat) (assistId : Option Nat) (isOwnGoal : Bool)
       (t : Tournament) (m : Match),
      findTournament ts tid = some t → t.adminId = userId → findMatch t matchId = some m →
      scorerId ∈ users → findTeamOf teams scorerId = none →
      recordGoalT ts teams users userId tid matchId scorerId assistId isOwnGoal =
        Except.error "Scorer is not part of any team in this match" ∧
      persist t (recordGoalT ts teams users userId tid matchId scorerId assistId isOwnGoal) =
        t) ∧
    (∀ (ts : List Tournament) (teams : List Team)
       (userId tid matchId playerId : Nat) (cardType : CardType),
      findTournament ts tid = none →
      recordCardT ts teams userId tid matchId playerId cardType =
        Except.error "Tournament not found") ∧
    (∀ (ts : List Tournament) (teams : List Team)
       (userId tid matchId playerId : Nat) (cardType : CardType) (t : Tournament),
      findTournament ts tid = some t → t.adminId = userId → findMatch t matchId = none →
      recordCardT ts teams userId tid matchId playerId cardType =
        Except.error "Match not found") ∧
    (∀ (ts : List Tournament) (teams : List Team)
       (userId tid matchId playerId : Nat) (cardType : CardType)
       (t : Tournament) (m : Match),
      findTournament ts tid = some t → t.adminId = userId → findMatch t matchId = some m →
      findTeamOf teams playerId = none →
      recordCardT ts teams userId tid matchId playerId cardType =
        Except.error "Player is not part of any team" ∧
      persist t (recordCardT ts teams userId tid matchId playerId cardType) = t) := by
  refine ⟨?_, ?_, ?_, ?_, ?_, ?_⟩
  · intro ts teams users userId tid matchId scorerId assistId isOwnGoal ht
    simp [recordGoalT, ht]
  · intro ts teams users userId tid matchId scorerId assistId isOwnGoal t ht hadmin hm
    simp [recordGoalT, ht, hadmin, hm]
  · intro ts teams users userId tid matchId scorerId assistId isOwnGoal t m ht hadmin hm
      husers hteam
    have h1 : recordGoalT ts teams users userId tid matchId scorerId assistId isOwnGoal =
        Except.error "Scorer is not part of any team in this match" := by
      simp [recordGoalT, ht, hadmin, hm, husers, recordGoalM, hteam, Except.map]
    exact ⟨h1, by rw [h1]; rfl⟩
  · intro ts teams userId tid matchId playerId cardType ht
    simp [recordCardT, ht]
  · intro ts teams userId tid matchId playerId cardType t ht hadmin hm
    simp [recordCardT, ht, hadmin, hm]
  · intro ts teams userId tid matchId playerId cardType t m ht hadmin hm hteam
    have h1 : recordCardT ts teams userId tid matchId playerId cardType =
        Except.error "Player is not part of any team" := by
      simp [recordCardT, ht, hadmin, hm, recordCardM, hteam, Except.map]
    exact ⟨h1, by rw [h1]; rfl⟩

/-- Witness for `event_recording_errors`: a scorer who is in the stored user
list but on no team is rejected, and a missing tournament is a not-found
error. -/
theorem event_recording_errors_witness :
    (recordGoalT
        [{ id := 1, adminId := 7, teams := [1, 2],
           «matches» := [{ id := 5, matchNumber := 1, teamAId := 1, teamBId := 2,
                           round := "League Stage" }],
           inviteCode := "ABCDEFGHIJ" }]
        [{ id := 1, adminIds := [100], members := [10], inviteCode := "AAAA1111" }]
        [99] 7 1 5 99 none false =
      Except.error "Scorer is not part of any team in this match") ∧
    (recordCardT [] [] 7 1 5 10 CardType.Yellow = Except.error "Tournament not found") := by
  constructor
  · exact (event_recording_errors.2.2.1
      [{ id := 1, adminId := 7, teams := [1, 2],
         «matches» := [{ id := 5, matchNumber := 1, teamAId := 1, teamBId := 2,
                         round := "League Stage" }],
         inviteCode := "ABCDEFGHIJ" }]
      [{ id := 1, adminIds := [100], members := [10], inviteCode := "AAAA1111" }]
      [99] 7 1 5 99 none false
      { id := 1, adminId := 7, teams := [1, 2],
        «matches» := [{ id := 5, matchNumber := 1, teamAId := 1, teamBId := 2,
                        round := "League Stage" }],
        inviteCode := "ABCDEFGHIJ" }
      { id := 5, matchNumber := 1, teamAId := 1, teamBId := 2, round := "League Stage" }
      rfl rfl rfl (by decide) rfl).1
  · exact event_recording_errors.2.2.2.1 [] [] 7 1 5 10 CardType.Yellow rfl

/-- Per-team accumulator of `calculatePointsTable`
(`components/TeamPage.tsx:58-98`): played, won, drawn, lost, points, goals
for, goals against.  All entries start at zero. -/
structure TStats where
  p : Nat := 0
  w : Nat := 0
  d : Nat := 0
  l : Nat := 0
  pts : Nat := 0
  gf : Nat := 0
  ga : Nat := 0
deriving DecidableEq, Repr

/-- A guarded mutation of the stats dictionary: the JS code initialises
`stats` with exactly the input team ids as keys and mutates an entry only
behind `if (stats[id])`. -/
def statsUpdate (teams : List Nat) (tid : Nat) (g : TStats → TStats)
    (f : Nat → TStats) : Nat → TStats :=
  fun x => if tid ∈ teams ∧ x = tid then g (f tid) else f x

/-- The `forEach` body of `calculatePointsTable` folding one finished match:
both teams get played/goals-for/goals-against; then the winner (matched
against `winnerId`) gets a win and 3 points and the other a loss, or both get
a draw and 1 point. -/
def applyFinishedMatch (teams : List Nat) (f : Nat → TStats) (m : Match) :
    Nat → TStats :=
  let a := m.teamAId
  let b := m.teamBId
  let f2 :=
    statsUpdate teams b
      (fun s => { s with p := s.p + 1, gf := s.gf + m.scoreB, ga := s.ga + m.scoreA })
      (statsUpdate teams a
        (fun s => { s with p := s.p + 1, gf := s.gf + m.scoreA, ga := s.ga + m.scoreB }) f)
  if m.winnerId = some a then
    statsUpdate teams b (fun s => { s with l := s.l + 1 })
      (statsUpdate teams a (fun s => { s with w := s.w + 1, pts := s.pts + 3 }) f2)
  else if m.winnerId = some b then
    statsUpdate teams a (fun s => { s with l := s.l + 1 })
      (statsUpdate teams b (fun s => { s with w := s.w + 1, pts := s.pts + 3 }) f2)
  else
    statsUpdate teams b (fun s => { s with d := s.d + 1, pts := s.pts + 1 })
      (statsUpdate teams a (fun s => { s with d := s.d + 1, pts := s.pts + 1 }) f2)

/-- The stats dictionary after folding every finished match, in match-list
order. -/
def computeStats («matches» : List Match) (teams : List Nat) : Nat → TStats :=
  («matches».filter (fun m => m.status == MatchStatus.Finished)).foldl
    (applyFinishedMatch teams) (fun _ => {})

/-- One output row of the points table: the team with its stats and the
derived goal difference `gf - ga`. -/
structure TableRow where
  teamId : Nat
  p : Nat
  w : Nat
  d : Nat
  l : Nat
  pts : Nat
  gf : Nat
  ga : Nat
  gd : Int
deriving DecidableEq, Repr

def mkRow (f : Nat → TStats) (tid : Nat) : TableRow :=
  { teamId := tid, p := (f tid).p, w := (f tid).w, d := (f tid).d, l := (f tid).l,
    pts := (f tid).pts, gf := (f tid).gf, ga := (f tid).ga,
    gd := ((f tid).gf : Int) - ((f tid).ga : Int) }

/-- Relation: `a` sorts before-or-with `b` under the comparator
`(a, b) => b.pts - a.pts || b.gd - a.gd`: strictly more points, or equal
points and at least the goal difference. -/
def rowLe (a b : TableRow) : Prop :=
  b.pts < a.pts ∨ (a.pts = b.pts ∧ b.gd ≤ a.gd)

instance : DecidableRel rowLe := fun a b =>
  inferInstanceAs (Decidable (b.pts < a.pts ∨ (a.pts = b.pts ∧ b.gd ≤ a.gd)))

instance : IsTotal TableRow rowLe :=
  ⟨by intro a b; unfold rowLe; omega⟩

instance : IsTrans TableRow rowLe :=
  ⟨by intro a b c; unfold rowLe; omega⟩

/-- The standings computation `calculatePointsTable(matches, teams)`: fold the finished matches into
the stats dictionary, project one row per input team (in input order), then
sort with the comparator.  `Array.prototype.sort` is stable (ES2019); a
stable sort by this total preorder comparator is modelled exactly by
insertion sort with the non-strict relation `rowLe`. -/
def calculatePointsTable («matches» : List Match) (teams : List Nat) : List TableRow :=
  List.insertionSort rowLe (teams.map (mkRow (computeStats «matches» teams)))

/-- The part of a row the comparator inspects. -/
def rowKey (r : TableRow) : Nat × Int := (r.pts, r.gd)

lemma rowLe_of_key_eq {a b : TableRow} (h : rowKey a = rowKey b) : rowLe a b := by
  simp only [rowKey, Prod.mk.injEq] at h
  unfold rowLe
  omega

lemma filter_orderedInsert_key (k : Nat × Int) (a : TableRow) (L : List TableRow) :
    (List.orderedInsert rowLe a L).filter (fun x => decide (rowKey x = k)) =
      if rowKey a = k then a :: L.filter (fun x => decide (rowKey x = k))
      else L.filter (fun x => decide (rowKey x = k)) := by
  induction L with
  | nil =>
    by_cases hak : rowKey a = k <;> simp [List.orderedInsert, hak]
  | cons b bs ih =>
    by_cases hr : rowLe a b
    · rw [List.orderedInsert_of_le rowLe _ hr]
      by_cases hak : rowKey a = k <;> simp [List.filter_cons, hak]
    · have hstep : List.orderedInsert rowLe a (b :: bs) =
          b :: List.orderedInsert rowLe a bs := by
        simp [List.orderedInsert, hr]
      rw [hstep]
      have hkey : rowKey b ≠ rowKey a := fun he => hr (rowLe_of_key_eq he.symm)
      by_cases hak : rowKey a = k
      · have hbk : ¬ rowKey b = k := fun hb => hkey (hb.trans hak.symm)
        simp [List.filter_cons, hak, hbk, ih]
      · by_cases hbk : rowKey b = k <;> simp [List.filter_cons, hak, hbk, ih]

lemma filter_insertionSort_key (k : Nat × Int) (L : List TableRow) :
    (List.insertionSort rowLe L).filter (fun x => decide (rowKey x = k)) =
      L.filter (fun x => decide (rowKey x = k)) := by
  induction L with
  | nil => rfl
  | cons a L ih =>
    simp only [List.insertionSort]
    rw [filter_orderedInsert_key]
    by_cases hak : rowKey a = k <;> simp [List.filter_cons, hak, ih]

/-- The scoring discipline: points are always three per win plus one per
draw. -/
def PtsInv (s : TStats) : Prop := s.pts = 3 * s.w + s.d

lemma statsUpdate_ptsInv {teams : List Nat} {tid : Nat} {g : TStats → TStats}
    {f : Nat → TStats} (hg : ∀ s, PtsInv s → PtsInv (g s))
    (hf : ∀ x, PtsInv (f x)) : ∀ x, PtsInv (statsUpdate teams tid g f x) := by
  intro x
  unfold statsUpdate
  split
  · exact hg _ (hf tid)
  · exact hf x

lemma applyFinishedMatch_ptsInv {teams : List Nat} {m : Match} {f : Nat → TStats}
    (hf : ∀ x, PtsInv (f x)) : ∀ x, PtsInv (applyFinishedMatch teams f m x) := by
  have hbase : ∀ x, PtsInv
      (statsUpdate teams m.teamBId
        (fun s => { s with p := s.p + 1, gf := s.gf + m.scoreB, ga := s.ga + m.scoreA })
        (statsUpdate teams m.teamAId
          (fun s => { s with p := s.p + 1, gf := s.gf + m.scoreA, ga := s.ga + m.scoreB })
          f) x) := by
    refine statsUpdate_ptsInv ?_ (statsUpdate_ptsInv ?_ hf) <;>
      intro s hs <;> simpa [PtsInv] using hs
  intro x
  unfold applyFinishedMatch
  split
  · refine statsUpdate_ptsInv ?_ (statsUpdate_ptsInv ?_ hbase) x <;>
      intro s hs <;> simp [PtsInv] at hs ⊢ <;> omega
  · split
    · refine statsUpdate_ptsInv ?_ (statsUpdate_ptsInv ?_ hbase) x <;>
        intro s hs <;> simp [PtsInv] at hs ⊢ <;> omega
    · refine statsUpdate_ptsInv ?_ (statsUpdate_ptsInv ?_ hbase) x <;>
        intro s hs <;> simp [PtsInv] at hs ⊢ <;> omega

lemma computeStats_ptsInv («matches» : List Match) (teams : List Nat) :
    ∀ x, PtsInv (computeStats «matches» teams x) := by
  unfold computeStats
  have h : ∀ (ms : List Match) (f : Nat → TStats), (∀ x, PtsInv (f x)) →
      ∀ x, PtsInv (ms.foldl (applyFinishedMatch teams) f x) := by
    intro ms
    induction ms with
    | nil => exact fun f hf => hf
    | cons m ms ih => exact fun f hf => ih _ (applyFinishedMatch_ptsInv hf)
  exact h _ _ (fun x => by simp [PtsInv])

/-- C5: the points table awards 3 points per win and 1 per draw (none for a
loss), is sorted by descending points with ties broken by descending goal
difference, and is stable: rows with equal points and goal difference keep
the relative order of the input team list (the unsorted projection
`teams.map (mkRow ...)` is in input order). -/
theorem points_table_correct («matches» : List Match) (teams : List Nat) :
    (∀ r ∈ calculatePointsTable «matches» teams, r.pts = 3 * r.w + r.d) ∧
    (calculatePointsTable «matches» teams).Pairwise rowLe ∧
    (∀ k : Nat × Int,
      (calculatePointsTable «matches» teams).filter (fun r => decide (rowKey r = k)) =
        (teams.map (mkRow (computeStats «matches» teams))).filter
          (fun r => decide (rowKey r = k))) := by
  refine ⟨?_, ?_, ?_⟩
  · intro r hr
    have hperm := List.perm_insertionSort rowLe (teams.map (mkRow (computeStats «matches» teams)))
    have hr2 : r ∈ teams.map (mkRow (computeStats «matches» teams)) :=
      hperm.mem_iff.mp hr
    obtain ⟨tid, _, rfl⟩ := List.mem_map.mp hr2
    exact computeStats_ptsInv «matches» teams tid
  · exact List.sorted_insertionSort rowLe _
  · intro k
    exact filter_insertionSort_key k _

/-- JavaScript `String.prototype.toUpperCase`, applied characterwise (the
invite-code alphabet is ASCII). -/
def jsToUpperCase (s : String) : String := String.mk (s.data.map Char.toUpper)

/-- The URL-safe alphabet of the `nanoid` generator used by the schema
defaults `nanoid(8)` / `nanoid(10)`: `A-Za-z0-9_-`. -/
def nanoidAlphabet : List Char :=
  "ABCDEFGHIJKLMNOPQRSTUVWXYZabcdefghijklmnopqrstuvwxyz0123456789_-".data

/-- The schema default `() => nanoid(n).toUpperCase()`
(`TeamSchema.inviteCode`, `TournamentSchema.inviteCode`); the raw `nanoid`
output is a length-`n` string over `nanoidAlphabet`. -/
def mkInviteCode (raw : String) : String := jsToUpperCase raw

/-- A string already in uppercase form. -/
def isUpperCased (s : String) : Prop := jsToUpperCase s = s

/-- The backend `joinTeam` lookup `Team.findOne({ inviteCode })`
(`teamController joinTeam`): exact, case-sensitive string equality. -/
def findTeamByCode (teams : List Team) (code : String) : Option Team :=
  teams.find? (fun tm => tm.inviteCode == code)

/-- The local-state client lookup (`AppContext.tsx`, `joinTeam`):
`t.inviteCode.toUpperCase() === code.toUpperCase()`. -/
def findTeamByCodeCI (teams : List Team) (code : String) : Option Team :=
  teams.find? (fun tm => jsToUpperCase tm.inviteCode == jsToUpperCase code)

/-- Counterexample to C9 as stated: the stored code is the uppercase
"ABCD1234"; the candidate "abcd1234" is equal to it under case-insensitive
comparison, yet the backend join-by-code lookup (exact equality) fails. -/
theorem join_code_case_sensitive_cex :
    jsToUpperCase "abcd1234" = "ABCD1234" ∧
    findTeamByCode
      [{ id := 1, adminIds := [100], members := [10], inviteCode := "ABCD1234" }]
      "abcd1234" = none ∧
    findTeamByCodeCI
      [{ id := 1, adminIds := [100], members := [10], inviteCode := "ABCD1234" }]
      "abcd1234" =
      some { id := 1, adminIds := [100], members := [10], inviteCode := "ABCD1234" } :=
  ⟨rfl, rfl, rfl⟩

lemma toUpper_idem_on_alphabet :
    ∀ c ∈ nanoidAlphabet, c.toUpper.toUpper = c.toUpper := by decide

/-- C9 (amended): generated invite codes keep the requested length (8 for
teams, 10 for tournaments) and are uppercase; the backend join-by-code lookup
succeeds exactly when the candidate equals a stored code by exact
(case-sensitive) comparison, while the local-state client lookup compares the
uppercased forms (case-insensitively). -/
theorem invite_code_properties :
    (∀ (raw : String) (n : Nat), raw.length = n →
      (∀ c ∈ raw.data, c ∈ nanoidAlphabet) →
      (mkInviteCode raw).length = n ∧ isUpperCased (mkInviteCode raw)) ∧
    (∀ (teams : List Team) (code : String),
      (findTeamByCode teams code).isSome ↔ ∃ tm ∈ teams, tm.inviteCode = code) ∧
    (∀ (teams : List Team) (code : String) (tm : Team),
      findTeamByCode teams code = some tm → tm.inviteCode = code) ∧
    (∀ (teams : List Team) (code : String) (tm : Team),
      findTeamByCodeCI teams code = some tm →
      jsToUpperCase tm.inviteCode = jsToUpperCase code) := by
  refine ⟨?_, ?_, ?_, ?_⟩
  · intro raw n hlen halph
    constructor
    · show (String.mk (raw.data.map Char.toUpper)).length = n
      rw [String.length_mk, List.length_map]
      exact hlen
    · show jsToUpperCase (jsToUpperCase raw) = jsToUpperCase raw
      simp only [jsToUpperCase, List.map_map]
      congr 1
      refine List.map_congr_left ?_
      intro c hc
      exact toUpper_idem_on_alphabet c (halph c hc)
  · intro teams code
    rw [findTeamByCode, List.find?_isSome]
    constructor
    · rintro ⟨tm, htm, hcode⟩
      exact ⟨tm, htm, by simpa using hcode⟩
    · rintro ⟨tm, htm, hcode⟩
      exact ⟨tm, htm, by simpa using hcode⟩
  · intro teams code tm hfind
    have := List.find?_some hfind
    simpa using this
  · intro teams code tm hfind
    have := List.find?_some hfind
    simpa using this

/-- Witness for `invite_code_properties` at a concrete raw nanoid output and
a concrete stored team. -/
theorem invite_code_properties_witness :
    ((mkInviteCode "aB-cd_12").length = 8 ∧ isUpperCased (mkInviteCode "aB-cd_12")) ∧
    ((findTeamByCode
        [{ id := 1, adminIds := [100], members := [10], inviteCode := "ABCD1234" }]
        "ABCD1234").isSome ↔
      ∃ tm ∈ [({ id := 1, adminIds := [100], members := [10],
                 inviteCode := "ABCD1234" } : Team)], tm.inviteCode = "ABCD1234") ∧
    ({ id := 1, adminIds := [100], members := [10],
       inviteCode := "ABCD1234" } : Team).inviteCode = "ABCD1234" := by
  refine ⟨?_, ?_, ?_⟩
  · exact invite_code_properties.1 "aB-cd_12" 8 rfl (by decide)
  · exact invite_code_properties.2.1
      [{ id := 1, adminIds := [100], members := [10], inviteCode := "ABCD1234" }]
      "ABCD1234"
  · exact invite_code_properties.2.2.1
      [{ id := 1, adminIds := [100], members := [10], inviteCode := "ABCD1234" }]
      "ABCD1234"
      { id := 1, adminIds := [100], members := [10], inviteCode := "ABCD1234" } rfl

/-- Witness for `points_table_correct` on a concrete two-team league with
one finished 2-1 match won by team 1. -/
theorem points_table_correct_witness :
    (∀ r ∈ calculatePointsTable
        [{ id := 5, matchNumber := 1, teamAId := 1, teamBId := 2,
           scoreA := 2, scoreB := 1, round := "League Stage",
           status := MatchStatus.Finished, winnerId := some 1 }] [1, 2],
      r.pts = 3 * r.w + r.d) ∧
    (calculatePointsTable
        [{ id := 5, matchNumber := 1, teamAId := 1, teamBId := 2,
           scoreA := 2, scoreB := 1, round := "League Stage",
           status := MatchStatus.Finished, winnerId := some 1 }] [1, 2]).Pairwise rowLe ∧
    (∀ k : Nat × Int,
      (calculatePointsTable
          [{ id := 5, matchNumber := 1, teamAId := 1, teamBId := 2,
             scoreA := 2, scoreB := 1, round := "League Stage",
             status := MatchStatus.Finished, winnerId := some 1 }] [1, 2]).filter
        (fun r => decide (rowKey r = k)) =
      ([1, 2].map (mkRow (computeStats
          [{ id := 5, matchNumber := 1, teamAId := 1, teamBId := 2,
             scoreA := 2, scoreB := 1, round := "League Stage",
             status := MatchStatus.Finished, winnerId := some 1 }] [1, 2]))).filter
        (fun r => decide (rowKey r = k))) :=
  points_table_correct
    [{ id := 5, matchNumber := 1, teamAId := 1, teamBId := 2,
       scoreA := 2, scoreB := 1, round := "League Stage",
       status := MatchStatus.Finished, winnerId := some 1 }] [1, 2]

end ASL
